import Mathlib

/-!
Verification of the document-summarizer pipeline
(`cdk-python/cdk.out/asset.dfdd.../index.py`, the canonical Lambda asset).

Python strings are embedded as `List Char` (a Python `str` is a sequence of
Unicode code points).  Collaborator services (object store, Textract, Bedrock,
DynamoDB, SNS) are embedded as explicit environment records, and the side
effects of a run are captured as an event trace.
-/

namespace DocSummarizer

set_option maxRecDepth 40000

instance {ε α : Type} [DecidableEq ε] [DecidableEq α] : DecidableEq (Except ε α) := fun x y =>
  match x, y with
  | Except.ok a, Except.ok b =>
      if h : a = b then isTrue (congrArg Except.ok h)
      else isFalse (fun hh => h (Except.ok.inj hh))
  | Except.ok _, Except.error _ => isFalse (fun hh => Except.noConfusion hh)
  | Except.error _, Except.ok _ => isFalse (fun hh => Except.noConfusion hh)
  | Except.error e, Except.error f =>
      if h : e = f then isTrue (congrArg Except.error h)
      else isFalse (fun hh => h (Except.error.inj hh))

/-! ### Python primitives used by the source -/

/-- The whitespace characters stripped by Python's `str.strip()`
(ASCII whitespace plus the Unicode space separators). -/
def pySpaceChars : List Char :=
  [' ', '\t', '\n', '\r', '\x0b', '\x0c', '\x1c', '\x1d', '\x1e', '\x1f',
   '\u0085', ' ', ' ',
   ' ', ' ', ' ', ' ', ' ', ' ', ' ',
   ' ', ' ', ' ', ' ',
   ' ', ' ', ' ', ' ', '　']

def isPySpace (c : Char) : Bool := pySpaceChars.contains c

/-- `str.strip()`: remove leading and trailing whitespace.  Embedded as a
right-strip followed by a left-strip (the two commute, this order keeps the
leading-edge `dropWhile` outermost). -/
def pyRStrip (l : List Char) : List Char :=
  (l.reverse.dropWhile isPySpace).reverse

def pyStrip (l : List Char) : List Char :=
  (pyRStrip l).dropWhile isPySpace

/-- ASCII case folding, as used by the source on ASCII marker strings
(`str.lower()`). -/
def pyLower1 (c : Char) : Char :=
  if 'A' ≤ c ∧ c ≤ 'Z' then Char.ofNat (c.toNat + 32) else c

def pyLower (l : List Char) : List Char := l.map pyLower1

/-- Line-boundary characters recognized by Python's `str.splitlines()`. -/
def lineBoundaryChars : List Char :=
  ['\n', '\r', '\x0b', '\x0c', '\x1c', '\x1d', '\x1e', '\u0085', ' ', ' ']

def isLineBoundary (c : Char) : Bool := lineBoundaryChars.contains c

/-- `str.splitlines()`: split at line boundaries ('\r\n' counts as one
boundary); a trailing boundary does not produce a final empty line. -/
def pySplitlinesAux : List Char → List Char → List (List Char)
  | [], acc => if acc.isEmpty then [] else [acc.reverse]
  | '\r' :: '\n' :: rest, acc => acc.reverse :: pySplitlinesAux rest []
  | c :: rest, acc =>
    if isLineBoundary c then acc.reverse :: pySplitlinesAux rest []
    else pySplitlinesAux rest (c :: acc)

def pySplitlines (l : List Char) : List (List Char) := pySplitlinesAux l []

/-- `needle` is a leading segment of `hay`. -/
def startsWithL : List Char → List Char → Bool
  | _, [] => true
  | [], _ :: _ => false
  | c :: cs, p :: ps => c == p && startsWithL cs ps

/-- `needle in hay` for Python strings: some suffix of `hay` starts with
`needle`. -/
def containsSub : List Char → List Char → Bool
  | [], needle => needle.isEmpty
  | hay@(_ :: rest), needle => startsWithL hay needle || containsSub rest needle

/-! ### Text Sanitizer (`_clean_extracted_text`, index.py lines 114-151) -/

def isPyDigit (c : Char) : Bool := decide ('0' ≤ c) && decide (c ≤ '9')

/-- Consume one-or-more characters satisfying `p` (the `X+` regex pieces);
`none` when the first character does not satisfy `p`. -/
def chompWhile1 (p : Char → Bool) : List Char → Option (List Char)
  | c :: rest => if p c then some (rest.dropWhile p) else none
  | [] => none

/-- The regex `^\d+\s+\d+\s+obj$` from the source (e.g. matches `12 0 obj`).
Greedy scanning is exact here because the digit, whitespace and `obj`
character classes are disjoint. -/
def matchObjPattern (l : List Char) : Bool :=
  match chompWhile1 isPyDigit l with
  | none => false
  | some l1 =>
    match chompWhile1 isPySpace l1 with
    | none => false
    | some l2 =>
      match chompWhile1 isPyDigit l2 with
      | none => false
      | some l3 =>
        match chompWhile1 isPySpace l3 with
        | none => false
        | some l4 => l4 == "obj".data

/-- The container keywords dropped by the sanitizer (compared against the
lowercased line in the source: `if lower in ("endobj", "stream", "endstream")`). -/
def pdfKeywords : List (List Char) :=
  ["endobj".data, "stream".data, "endstream".data]

/-- The per-line loop of `_clean_extracted_text`: blank lines are kept as
empty lines, structural PDF marker lines are dropped, other lines are kept
stripped. -/
def cleanLoop : List (List Char) → List (List Char)
  | [] => []
  | line :: rest =>
    if pyStrip line = [] then [] :: cleanLoop rest
    else if startsWithL (pyLower (pyStrip line)) "%pdf".data then cleanLoop rest
    else if startsWithL (pyLower (pyStrip line)) "%%eof".data then cleanLoop rest
    else if matchObjPattern (pyStrip line) then cleanLoop rest
    else if pyLower (pyStrip line) ∈ pdfKeywords then cleanLoop rest
    else pyStrip line :: cleanLoop rest

/-- The final character-level filter: keep newline, tab, printable ASCII
(32-126) and code points at or above 160. -/
def keepChar (c : Char) : Bool :=
  c == '\n' || c == '\t' ||
  (decide (32 ≤ c.toNat) && decide (c.toNat ≤ 126)) ||
  decide (160 ≤ c.toNat)

/-- `_clean_extracted_text(raw)`: per-line PDF-marker cleanup, rejoin with
newlines, then the printable-character filter. -/
def _clean_extracted_text (raw : List Char) : List Char :=
  (List.intercalate ['\n'] (cleanLoop (pySplitlines raw))).filter keepChar

/-! ### Summarizer (`generate_summary` / `_generic_failure_summary`,
index.py lines 198-286) -/

/-- The canned fallback returned when the model output trips the
banned-phrase guard (`_generic_failure_summary`, lines 198-208). -/
def _generic_failure_summary : List Char :=
  ("1. The document text could not be read in a clear way.\n" ++
   "2. No reliable topics, facts, or dates can be identified from the available data.\n" ++
   "3. Consider uploading a text-based or searchable PDF version of the file.\n" ++
   "4. If the file is scanned, try running OCR locally and uploading the extracted text.").data

/-- The truncation marker appended when the input exceeds the 10,000
character budget (line 216: `text_content[:max_length] + "..."`). -/
def truncationMarker : List Char := "...".data

/-- Lines 214-217: truncate to 10,000 characters, appending the marker when
truncation happened. -/
def truncateBudget (t : List Char) : List Char :=
  if t.length > 10000 then t.take 10000 ++ truncationMarker else t

/-- The document text embedded in the user prompt: the truncated input after
the defensive second sanitizer pass (line 220). -/
def promptDocText (t : List Char) : List Char :=
  _clean_extracted_text (truncateBudget t)

/-- The fixed system prompt (lines 222-231). -/
def promptSystemText : List Char :=
  ("You write natural, human-sounding summaries of documents.\n" ++
   "Rules:\n" ++
   "- Do not apologize.\n" ++
   "- Do not mention binary data, encoding, PDF structure, or raw bytes.\n" ++
   "- Do not say the document is corrupted or unreadable.\n" ++
   "- Do not use markdown, bullet symbols, or asterisks (*, -, •, etc.).\n" ++
   "- Write plain text only, with numbered points and short paragraphs.\n" ++
   "If you truly cannot see any meaningful text at all, keep the answer very short.").data

/-- The user prompt wrapping the (truncated, sanitized) document text
(lines 233-242). -/
def prompt_user (doc : List Char) : List Char :=
  ("Summarize the following document clearly and concisely.\n" ++
   "Include:\n" ++
   "1. Main topics and key points\n" ++
   "2. Important facts, figures, and conclusions\n" ++
   "3. Actionable insights or recommendations\n" ++
   "4. Any critical deadlines or dates mentioned\n\n" ++
   "Document content:\n").data ++ doc ++ ['\n']

/-- The formatting characters deleted from the raw model output
(line 264: `for ch in ["*", "•", "●", "-", "▪"]`). -/
def formatChars : List Char := ['*', '•', '●', '-', '▪']

/-- Lines 264-265: `summary_text = summary_text.replace(ch, "")` for each
formatting character (replacing a single character by the empty string is
exactly deletion of all its occurrences). -/
def removeFormatChars (s : List Char) : List Char :=
  formatChars.foldl (fun acc ch => acc.filter (fun c => c != ch)) s

/-- The cleaned model output: formatting characters removed, then stripped
(lines 264-267). -/
def cleanedResponse (raw : List Char) : List Char :=
  pyStrip (removeFormatChars raw)

/-- The banned "corrupted/binary" phrases (lines 271-277). -/
def badPhrases : List (List Char) :=
  ["appears to be corrupted".data,
   "contains unreadable data".data,
   "not in a recognizable text format".data,
   "not presented in a coherent, textual format".data,
   "raw, binary data".data]

/-- Line 278: `any(p in lower for p in bad_phrases)` with
`lower = summary_text.lower()`. -/
def bannedHit (s : List Char) : Bool :=
  badPhrases.any (fun p => containsSub (pyLower s) p)

/-- Lines 263-282: post-process the raw model output; substitute the canned
fallback when the banned-phrase guard fires. -/
def postProcessSummary (raw : List Char) : List Char :=
  if bannedHit (cleanedResponse raw) then _generic_failure_summary
  else cleanedResponse raw

/-! ### Event trace and collaborator environments -/

/-- A DynamoDB item as written by `store_metadata` (lines 317-339):
the fixed keys plus the optional `additional_data` entries. -/
structure Record where
  document_id : List Char
  processing_timestamp : List Char
  document_key : List Char
  processing_status : List Char
  ttl : Nat
  summary_key : Option (List Char)
  text_length : Option Nat
  summary_length : Option Nat
  processing_duration : Option (List Char)
  error_message : Option (List Char)
deriving DecidableEq, Repr

/-- The `additional_data` dict passed to `store_metadata`. -/
structure ExtraData where
  summary_key : Option (List Char) := none
  text_length : Option Nat := none
  summary_length : Option Nat := none
  processing_duration : Option (List Char) := none
  error_message : Option (List Char) := none
deriving DecidableEq, Repr

/-- One observable collaborator call.  `ok = false` records a call whose
underlying service raised. -/
inductive Event where
  | putItem (r : Record) (ok : Bool)
  | putObject (key : List Char) (body : List Char) (ok : Bool)
  | invokeModel (systemPrompt : List Char) (userPrompt : List Char)
  | publish (status : List Char) (document_id : List Char) (document_key : List Char)
      (summary_key : Option (List Char)) (error_message : Option (List Char)) (ok : Bool)
deriving DecidableEq, Repr

/-- `generate_summary(text_content)` (lines 211-286): builds the prompts,
invokes the model (embedded as the oracle `gen`, mapping the user prompt to
the model's message content) and post-processes the output.  Returns the
summary together with the invocation event. -/
def generate_summary (gen : List Char → List Char) (text_content : List Char) :
    List Char × List Event :=
  (postProcessSummary (gen (prompt_user (promptDocText text_content))),
   [Event.invokeModel promptSystemText (prompt_user (promptDocText text_content))])

/-! ### Text Extractor (`extract_text`, index.py lines 155-196) -/

/-- Outcome of `textract.detect_document_text`: either the returned blocks
(as `(BlockType, Text)` pairs), the distinguished
`UnsupportedDocumentException`, or any other service failure. -/
inductive TextractOutcome where
  | blocks (bs : List (List Char × List Char))
  | unsupportedDocument
  | failure (msg : List Char)
deriving DecidableEq, Repr

/-- The object-store / Textract collaborators seen by one `extract_text`
call.  The three decodings of the object body correspond to the three
decode calls in the source: `decode("utf-8")` (`none` models a
`UnicodeDecodeError`), `decode("latin-1", errors="ignore")` (total), and
`decode("utf-8", errors="ignore")` (total). -/
structure ExtractCollab where
  utf8Body : Option (List Char)
  latin1Body : List Char
  lossyUtf8Body : List Char
  textractOutcome : TextractOutcome
deriving Repr

/-- An extraction failure re-raised by `extract_text`'s final
`except Exception` clause. -/
inductive ExtractErr where
  | extraction (msg : List Char)
deriving DecidableEq, Repr

/-- `os.path.splitext(path)[1]`: the extension (with its dot) of the
basename, where the leading dots of the basename never start an
extension. -/
def afterLastSlash (l : List Char) : List Char :=
  (l.reverse.takeWhile (fun c => c != '/')).reverse

def extOfBase (b : List Char) : List Char :=
  let core := b.dropWhile (fun c => c == '.')
  let tailPart := core.reverse.takeWhile (fun c => c != '.')
  if tailPart.length = core.length then [] else '.' :: tailPart.reverse

def splitextExt (path : List Char) : List Char :=
  extOfBase (afterLastSlash path)

/-- The extensions read directly from the object store (line 165). -/
def textLikeExts : List (List Char) :=
  [".txt".data, ".md".data, ".csv".data, ".log".data]

/-- `extract_text(bucket, key)` (lines 155-196): direct read for text-like
extensions (UTF-8 with Latin-1 lossy fallback), Textract LINE blocks
otherwise, and for `UnsupportedDocumentException` the raw-bytes
lossy-decode + sanitizer fallback.  Any other Textract failure is
re-raised. -/
def extract_text (x : ExtractCollab) (key : List Char) : Except ExtractErr (List Char) :=
  if splitextExt (pyLower key) ∈ textLikeExts then
    Except.ok (x.utf8Body.getD x.latin1Body)
  else
    match x.textractOutcome with
    | TextractOutcome.blocks bs =>
        Except.ok (List.intercalate ['\n']
          (bs.filterMap (fun b => if b.1 = "LINE".data then some b.2 else none)))
    | TextractOutcome.unsupportedDocument =>
        Except.ok (_clean_extracted_text x.lossyUtf8Body)
    | TextractOutcome.failure m =>
        Except.error (ExtractErr.extraction m)

/-! ### Pipeline Orchestrator (`lambda_handler` and the persistence helpers,
index.py lines 31-112 and 290-377) -/

/-- The errors that can cross the orchestrator boundary in this model:
the extraction re-raise, the `ValueError` for empty content (line 50), and
a summary-artifact write failure re-raised by `store_summary`. -/
inductive PipelineError where
  | extraction (msg : List Char)
  | emptyContent (msg : List Char)
  | persistence (msg : List Char)
deriving DecidableEq, Repr

def PipelineError.msg : PipelineError → List Char
  | PipelineError.extraction m => m
  | PipelineError.emptyContent m => m
  | PipelineError.persistence m => m

/-- `str(ValueError("No text could be extracted from the document."))`. -/
def emptyMsg : List Char := "No text could be extracted from the document.".data

def strPROCESSING : List Char := "PROCESSING".data
def strCOMPLETED : List Char := "COMPLETED".data
def strFAILED : List Char := "FAILED".data
def strSUCCESS : List Char := "SUCCESS".data

/-- The success body returned by `lambda_handler` (lines 76-87). -/
structure HandlerResponse where
  statusCode : Nat
  document_id : List Char
  document : List Char
  summary_key : List Char
  summary_length : Nat
deriving DecidableEq, Repr

/-- The collaborators and ambient values of one Lambda invocation:
`uuid.uuid4()`, the ISO timestamp taken once at entry (line 34), the epoch
seconds used for the TTL, the stringified duration, the trigger (bucket,
key), the extraction collaborators, the Bedrock oracle, and whether each
write/publish collaborator call succeeds (`false` = the call raises). -/
structure HandlerEnv where
  documentId : List Char
  t0 : List Char
  nowEpoch : Nat
  duration : List Char
  bucket : List Char
  key : List Char
  x : ExtractCollab
  gen : List Char → List Char
  putItemOk : Bool
  putObjectOk : Bool
  putObjectError : List Char
  publishOk : Bool

/-- `store_metadata` (lines 317-343): builds the item (fixed keys, 30-day
TTL, merged `additional_data`) and calls `put_item`.  The surrounding
`try/except` swallows any `put_item` failure after logging, so this
function never raises: a failed call is recorded as an event with
`ok = false`. -/
def store_metadata (putItemOk : Bool) (nowEpoch : Nat)
    (document_id document_key status timestamp : List Char)
    (additional_data : ExtraData) : List Event :=
  [Event.putItem
    { document_id := document_id
      processing_timestamp := timestamp
      document_key := document_key
      processing_status := status
      ttl := nowEpoch + 30 * 24 * 60 * 60
      summary_key := additional_data.summary_key
      text_length := additional_data.text_length
      summary_length := additional_data.summary_length
      processing_duration := additional_data.processing_duration
      error_message := additional_data.error_message }
    putItemOk]

/-- The derived artifact key (line 293):
`f"summaries/{original_key}.summary.txt"`. -/
def summaryKeyFor (original_key : List Char) : List Char :=
  "summaries/".data ++ original_key ++ ".summary.txt".data

/-- `store_summary` (lines 290-314): write the summary object; on failure
log and re-raise (the orchestrator boundary sees the error). -/
def store_summary (putObjectOk : Bool) (putObjectError : List Char)
    (original_key summary : List Char) :
    Except PipelineError (List Char) × List Event :=
  if putObjectOk then
    (Except.ok (summaryKeyFor original_key),
     [Event.putObject (summaryKeyFor original_key) summary true])
  else
    (Except.error (PipelineError.persistence putObjectError),
     [Event.putObject (summaryKeyFor original_key) summary false])

/-- `send_notification` (lines 346-377): publish the status message; any
publish failure is logged and swallowed, so this never raises. -/
def send_notification (publishOk : Bool)
    (document_id document_key : List Char) (summary_key : Option (List Char))
    (status : List Char) (error_message : Option (List Char)) : List Event :=
  [Event.publish status document_id document_key summary_key error_message publishOk]

/-- The `except Exception` tail of `lambda_handler` (lines 89-112): write a
FAILED record carrying `str(e)` under the same `processing_timestamp`,
best-effort publish a FAILED notification, then re-raise `e`. -/
def failOutcome (env : HandlerEnv) (e : PipelineError) (mid : List Event) :
    Except PipelineError HandlerResponse × List Event :=
  (Except.error e,
   store_metadata env.putItemOk env.nowEpoch env.documentId env.key strPROCESSING env.t0 {}
   ++ mid
   ++ store_metadata env.putItemOk env.nowEpoch env.documentId env.key strFAILED env.t0
        { error_message := some e.msg }
   ++ send_notification env.publishOk env.documentId env.key none strFAILED (some e.msg))

/-- `lambda_handler` (lines 31-112): PROCESSING record, extract, empty-text
check, summarize, artifact write, COMPLETED record, SUCCESS notification;
any raised error goes through `failOutcome` and is re-raised. -/
def lambda_handler (env : HandlerEnv) :
    Except PipelineError HandlerResponse × List Event :=
  match extract_text env.x env.key with
  | Except.error (ExtractErr.extraction m) =>
      failOutcome env (PipelineError.extraction m) []
  | Except.ok text_content =>
      if pyStrip text_content = [] then
        failOutcome env (PipelineError.emptyContent emptyMsg) []
      else
        match store_summary env.putObjectOk env.putObjectError env.key
                (generate_summary env.gen text_content).1 with
        | (Except.error e, evS) =>
            failOutcome env e ((generate_summary env.gen text_content).2 ++ evS)
        | (Except.ok summary_key, evS) =>
            (Except.ok
              { statusCode := 200
                document_id := env.documentId
                document := env.key
                summary_key := summary_key
                summary_length := (generate_summary env.gen text_content).1.length },
             store_metadata env.putItemOk env.nowEpoch env.documentId env.key strPROCESSING env.t0 {}
             ++ (generate_summary env.gen text_content).2 ++ evS
             ++ store_metadata env.putItemOk env.nowEpoch env.documentId env.key strCOMPLETED env.t0
                  { summary_key := some summary_key
                    text_length := some text_content.length
                    summary_length := some (generate_summary env.gen text_content).1.length
                    processing_duration := some env.duration }
             ++ send_notification env.publishOk env.documentId env.key (some summary_key)
                  strSUCCESS none)

/-! ### Views of the event trace -/

/-- Records successfully written to the record store. -/
def writtenRecords (evs : List Event) : List Record :=
  evs.filterMap (fun e => match e with
    | Event.putItem r true => some r
    | _ => none)

/-- All `put_item` attempts, including ones whose call raised. -/
def attemptedRecords (evs : List Event) : List Record :=
  evs.filterMap (fun e => match e with
    | Event.putItem r _ => some r
    | _ => none)

/-- The user prompts of all model invocations in a trace. -/
def modelInvocations (evs : List Event) : List (List Char) :=
  evs.filterMap (fun e => match e with
    | Event.invokeModel _ u => some u
    | _ => none)

/-- The (status, error_message, ok) of all notification publishes. -/
def publishedNotifications (evs : List Event) :
    List (List Char × Option (List Char) × Bool) :=
  evs.filterMap (fun e => match e with
    | Event.publish st _ _ _ em ok => some (st, em, ok)
    | _ => none)

/-- `put_item` semantics of the record store: the item replaces any item
with the same `(document_id, processing_timestamp)` key, else it is
appended. -/
def sameKey (q r : Record) : Bool :=
  q.document_id == r.document_id && q.processing_timestamp == r.processing_timestamp

def putReplace (tbl : List Record) (r : Record) : List Record :=
  if tbl.any (fun q => sameKey q r) then
    tbl.map (fun q => if sameKey q r then r else q)
  else tbl ++ [r]

/-- The record-store table obtained by applying the successful `put_item`
calls of a trace to an empty table. -/
def tableAfter (evs : List Event) : List Record :=
  (writtenRecords evs).foldl putReplace []

/-! ### Concrete fixtures used by witnesses and counterexamples -/

/-- A healthy run: `notes.txt` is read directly, the model answers a benign
summary, every collaborator call succeeds. -/
def env0 : HandlerEnv :=
  { documentId := "d-1".data
    t0 := "2024-01-01T00:00:00+00:00".data
    nowEpoch := 1704067200
    duration := "0.5".data
    bucket := "input-bucket".data
    key := "notes.txt".data
    x := { utf8Body := some "Meeting at 3pm.\nBudget: $500.".data
           latin1Body := []
           lossyUtf8Body := []
           textractOutcome := TextractOutcome.blocks [] }
    gen := fun _ => "The note covers a meeting at 3pm and a budget of 500 dollars.".data
    putItemOk := true
    putObjectOk := true
    putObjectError := "An error occurred calling PutObject".data
    publishOk := true }

/-- Same run, but every `put_item` call of the record store raises. -/
def env1 : HandlerEnv := { env0 with putItemOk := false }

/-- Same run, but the summary-artifact `put_object` call raises. -/
def env2 : HandlerEnv := { env0 with putObjectOk := false }

/-- Same run, but extraction yields whitespace-only text. -/
def env3 : HandlerEnv :=
  { env0 with x := { env0.x with utf8Body := some "  \n\t ".data } }

/-- A model oracle that answers with a banned "corrupted" explanation. -/
def genCorrupted : List Char → List Char :=
  fun _ => "Unfortunately the file appears to be corrupted and cannot be summarized.".data

/-- A model oracle that answers with a markdown heading. -/
def genHeading : List Char → List Char :=
  fun _ => "# Overview".data

/-- A model oracle with a plain, policy-compliant answer. -/
def genPlain : List Char → List Char :=
  fun _ => "A short plain answer.".data

/-- A model oracle whose answer carries hyphens inside a date. -/
def genDashed : List Char → List Char :=
  fun _ => "The report is due 2024-01-02 and covers well-known topics.".data

/-- Extraction collaborators for an upload whose format Textract rejects:
the raw bytes lossy-decode to PDF container structure around one text
line. -/
def xPdf : ExtractCollab :=
  { utf8Body := none
    latin1Body := []
    lossyUtf8Body := "%PDF-1.4\n1 0 obj\nHello World\nendobj\n%%EOF".data
    textractOutcome := TextractOutcome.unsupportedDocument }

/-! ### Spec-side sanitizer descriptions (for the refinement claim C7) -/

/-- The per-line rule exactly as claim C7 words it: blank lines are kept as
empty lines; a non-blank line is trimmed and dropped iff it starts
case-insensitively with the PDF magic marker, starts case-insensitively
with the end-of-file marker, matches the digits-digits-obj pattern, or IS
EXACTLY one of the container keywords (a case-sensitive comparison). -/
def claimLineStep (line : List Char) : Option (List Char) :=
  if pyStrip line = [] then some []
  else if startsWithL (pyLower (pyStrip line)) "%pdf".data
        || startsWithL (pyLower (pyStrip line)) "%%eof".data
        || matchObjPattern (pyStrip line)
        || decide (pyStrip line ∈ pdfKeywords) then none
  else some (pyStrip line)

def claimSanitize (raw : List Char) : List Char :=
  (List.intercalate ['\n'] ((pySplitlines raw).filterMap claimLineStep)).filter keepChar

/-- The per-line rule as amended: identical to `claimLineStep` except that
the container-keyword comparison is done on the lowercased trimmed line,
matching the source's `if lower in ("endobj", "stream", "endstream")`. -/
def specLineStep (line : List Char) : Option (List Char) :=
  if pyStrip line = [] then some []
  else if startsWithL (pyLower (pyStrip line)) "%pdf".data
        || startsWithL (pyLower (pyStrip line)) "%%eof".data
        || matchObjPattern (pyStrip line)
        || decide (pyLower (pyStrip line) ∈ pdfKeywords) then none
  else some (pyStrip line)

def specSanitize (raw : List Char) : List Char :=
  (List.intercalate ['\n'] ((pySplitlines raw).filterMap specLineStep)).filter keepChar

/-! ### The C3 counterexample input -/

/-- A 10,001-character input (a leading space, then 10,000 letters): long
enough to trigger truncation, and chosen so that the defensive sanitizer
pass visibly changes the truncated text (the leading space is trimmed). -/
def c3Input : List Char := ' ' :: List.replicate 10000 'a'

/-! ### Helper lemmas -/

lemma head?_dropWhile_false (p : Char → Bool) :
    ∀ (l : List Char) (a : Char), (l.dropWhile p).head? = some a → p a = false := by
  intro l
  induction l with
  | nil => intro a h; simp [List.dropWhile] at h
  | cons c rest ih =>
    intro a h
    by_cases hc : p c
    · rw [List.dropWhile_cons_of_pos hc] at h; exact ih a h
    · rw [List.dropWhile_cons_of_neg hc] at h
      simp at h
      rw [← h]
      exact Bool.eq_false_iff.mpr hc

lemma getLast?_dropWhile_of_ne_nil (p : Char → Bool) :
    ∀ (l : List Char), l.dropWhile p ≠ [] → (l.dropWhile p).getLast? = l.getLast? := by
  intro l
  induction l with
  | nil => intro h; simp [List.dropWhile] at h
  | cons c rest ih =>
    intro h
    by_cases hc : p c
    · rw [List.dropWhile_cons_of_pos hc] at h ⊢
      rw [ih h]
      have hrest : rest ≠ [] := by
        intro he; rw [he] at h; simp [List.dropWhile] at h
      cases rest with
      | nil => exact absurd rfl hrest
      | cons d t => simp [List.getLast?_cons_cons]
    · rw [List.dropWhile_cons_of_neg hc]

lemma mem_of_mem_dropWhile (p : Char → Bool) (c : Char) :
    ∀ (l : List Char), c ∈ l.dropWhile p → c ∈ l := by
  intro l
  induction l with
  | nil => intro h; simp [List.dropWhile] at h
  | cons d rest ih =>
    intro h
    by_cases hd : p d
    · rw [List.dropWhile_cons_of_pos hd] at h
      exact List.mem_cons_of_mem _ (ih h)
    · rwa [List.dropWhile_cons_of_neg hd] at h

lemma mem_of_mem_pyStrip (c : Char) (l : List Char) (h : c ∈ pyStrip l) : c ∈ l := by
  unfold pyStrip pyRStrip at h
  have h1 := mem_of_mem_dropWhile _ _ _ h
  rw [List.mem_reverse] at h1
  have h2 := mem_of_mem_dropWhile _ _ _ h1
  rwa [List.mem_reverse] at h2

lemma mem_removeFormatChars (c : Char) (s : List Char) :
    c ∈ removeFormatChars s ↔ c ∈ s ∧ c ∉ formatChars := by
  simp [removeFormatChars, formatChars, List.foldl, List.mem_filter, bne]
  tauto

/-- The head of a stripped string is never whitespace. -/
lemma pyStrip_head_not_space (l : List Char) (a : Char)
    (h : (pyStrip l).head? = some a) : isPySpace a = false := by
  unfold pyStrip at h
  exact head?_dropWhile_false _ _ _ h

/-- The last character of a stripped string is never whitespace. -/
lemma pyStrip_getLast_not_space (l : List Char) (a : Char)
    (h : (pyStrip l).getLast? = some a) : isPySpace a = false := by
  unfold pyStrip pyRStrip at h
  have hne : ((l.reverse.dropWhile isPySpace).reverse).dropWhile isPySpace ≠ [] := by
    intro he; rw [he] at h; simp at h
  rw [getLast?_dropWhile_of_ne_nil _ _ hne] at h
  rw [List.getLast?_reverse] at h
  exact head?_dropWhile_false _ _ _ h

/-! ### Claim theorems -/

/-- C2: if the cleaned generator output contains a banned
"corrupted/binary" phrase (checked case-insensitively), `generate_summary`
returns the fixed four-point canned fallback verbatim; otherwise it returns
the cleaned generated text unchanged. -/
theorem c2_banned_phrase_fallback (gen : List Char → List Char) (t : List Char) :
    (bannedHit (cleanedResponse (gen (prompt_user (promptDocText t)))) = true →
      (generate_summary gen t).1 = _generic_failure_summary) ∧
    (bannedHit (cleanedResponse (gen (prompt_user (promptDocText t)))) = false →
      (generate_summary gen t).1 = cleanedResponse (gen (prompt_user (promptDocText t)))) := by
  unfold generate_summary postProcessSummary
  constructor <;> intro h <;> simp [h]

/-- Witness for C2 at a concrete banned-phrase response. -/
theorem c2_banned_phrase_fallback_witness :
    bannedHit (cleanedResponse (genCorrupted (prompt_user (promptDocText "Hello.".data)))) = true ∧
    (generate_summary genCorrupted "Hello.".data).1 = _generic_failure_summary :=
  ⟨by decide, (c2_banned_phrase_fallback genCorrupted "Hello.".data).1 (by decide)⟩

/-- C6: every character surviving the sanitizer is newline, tab, printable
ASCII (32-126), or a code point at or above 160. -/
theorem c6_sanitize_char_whitelist (raw : List Char) (c : Char)
    (hc : c ∈ _clean_extracted_text raw) :
    c = '\n' ∨ c = '\t' ∨ (32 ≤ c.toNat ∧ c.toNat ≤ 126) ∨ 160 ≤ c.toNat := by
  unfold _clean_extracted_text at hc
  rw [List.mem_filter] at hc
  have h := hc.2
  simp [keepChar] at h
  tauto

/-- Witness for C6 at a concrete input and surviving character. -/
theorem c6_sanitize_char_whitelist_witness :
    'H' ∈ _clean_extracted_text "Hi".data ∧
    ('H' = '\n' ∨ 'H' = '\t' ∨ (32 ≤ 'H'.toNat ∧ 'H'.toNat ≤ 126) ∨ 160 ≤ 'H'.toNat) :=
  ⟨by decide, c6_sanitize_char_whitelist "Hi".data 'H' (by decide)⟩

/-- Counterexample to C9 as stated: the post-processing of
`generate_summary` never removes `'#'`, so a generator response carrying a
markdown heading survives into the returned summary even for a plain-text
input far below the size budget. -/
theorem c9_markdown_heading_counterexample :
    (generate_summary genHeading "Hello.".data).1 = "# Overview".data ∧
    '#' ∈ (generate_summary genHeading "Hello.".data).1 := by
  exact ⟨by decide, by decide⟩

/-- C9 as amended: when the banned-phrase guard does not fire, the summary
contains none of the characters the code strips (asterisk and the bullet
characters, including the hyphen); the markdown heading character is not in
that set. -/
theorem c9_no_stripped_format_chars (gen : List Char → List Char) (t : List Char)
    (h : bannedHit (cleanedResponse (gen (prompt_user (promptDocText t)))) = false) :
    ∀ c ∈ (generate_summary gen t).1, c ∉ formatChars := by
  intro c hc
  simp only [generate_summary] at hc
  unfold postProcessSummary at hc
  rw [h] at hc
  simp only [Bool.false_eq_true, if_false] at hc
  unfold cleanedResponse at hc
  exact ((mem_removeFormatChars c _).mp (mem_of_mem_pyStrip c _ hc)).2

/-- Witness for the amended C9. -/
theorem c9_no_stripped_format_chars_witness :
    bannedHit (cleanedResponse (genPlain (prompt_user (promptDocText "Hello.".data)))) = false ∧
    (∀ c ∈ (generate_summary genPlain "Hello.".data).1, c ∉ formatChars) :=
  ⟨by decide, c9_no_stripped_format_chars genPlain "Hello.".data (by decide)⟩

/-- C10: when no banned phrase matches after cleaning, the summary contains
no occurrence of `'*'`, `'•'`, `'●'`, `'-'`, `'▪'` (in particular every
hyphen the generator produced is deleted) and carries no leading or
trailing whitespace. -/
theorem c10_hyphen_stripping (gen : List Char → List Char) (t : List Char)
    (h : bannedHit (cleanedResponse (gen (prompt_user (promptDocText t)))) = false) :
    (∀ c ∈ (generate_summary gen t).1,
        c ≠ '*' ∧ c ≠ '•' ∧ c ≠ '●' ∧ c ≠ '-' ∧ c ≠ '▪') ∧
    (∀ a : Char,
        ((generate_summary gen t).1.head? = some a → isPySpace a = false) ∧
        ((generate_summary gen t).1.getLast? = some a → isPySpace a = false)) := by
  have hout : (generate_summary gen t).1
      = pyStrip (removeFormatChars (gen (prompt_user (promptDocText t)))) := by
    simp only [generate_summary]
    unfold postProcessSummary
    rw [h]
    simp only [Bool.false_eq_true, if_false]
    rfl
  constructor
  · intro c hc
    rw [hout] at hc
    have := ((mem_removeFormatChars c _).mp (mem_of_mem_pyStrip c _ hc)).2
    simp [formatChars] at this
    tauto
  · intro a
    rw [hout]
    exact ⟨pyStrip_head_not_space _ a, pyStrip_getLast_not_space _ a⟩

/-- Witness for C10: a response with hyphens inside a date; the returned
summary has them deleted. -/
theorem c10_hyphen_stripping_witness :
    bannedHit (cleanedResponse (genDashed (prompt_user (promptDocText "Hello.".data)))) = false ∧
    ((∀ c ∈ (generate_summary genDashed "Hello.".data).1,
        c ≠ '*' ∧ c ≠ '•' ∧ c ≠ '●' ∧ c ≠ '-' ∧ c ≠ '▪') ∧
     (∀ a : Char,
        ((generate_summary genDashed "Hello.".data).1.head? = some a → isPySpace a = false) ∧
        ((generate_summary genDashed "Hello.".data).1.getLast? = some a → isPySpace a = false))) :=
  ⟨by decide, c10_hyphen_stripping genDashed "Hello.".data (by decide)⟩

/-- Counterexample to C1 as stated: in a successful run both status
records carry the SAME `processing_timestamp` (the handler takes the
timestamp once, line 34, and passes it to every `store_metadata` call), so
under `put_item` keyed by (document_id, processing_timestamp) the COMPLETED
record replaces the PROCESSING record — they do not coexist. -/
theorem c1_put_item_same_key_counterexample :
    (writtenRecords (lambda_handler env0).2).map
        (fun r => (r.document_id, r.processing_timestamp, r.processing_status))
      = [("d-1".data, "2024-01-01T00:00:00+00:00".data, strPROCESSING),
         ("d-1".data, "2024-01-01T00:00:00+00:00".data, strCOMPLETED)] ∧
    (tableAfter (lambda_handler env0).2).map
        (fun r => (r.document_id, r.processing_timestamp, r.processing_status))
      = [("d-1".data, "2024-01-01T00:00:00+00:00".data, strCOMPLETED)] := by
  exact ⟨by decide, by decide⟩

/-- C1 as amended: each status change writes a fresh record sharing
document_id and the SAME processing_timestamp, so the terminal record
replaces the PROCESSING record of the attempt under `put_item`; the table
ends with exactly the terminal record, not an append-only pair. -/
theorem c1_terminal_record_overwrites_processing (env : HandlerEnv) (t : List Char)
    (hx : extract_text env.x env.key = Except.ok t)
    (hs : ¬ pyStrip t = [])
    (hpi : env.putItemOk = true)
    (hpo : env.putObjectOk = true) :
    (writtenRecords (lambda_handler env).2).map
        (fun r => (r.document_id, r.processing_timestamp, r.processing_status))
      = [(env.documentId, env.t0, strPROCESSING), (env.documentId, env.t0, strCOMPLETED)] ∧
    (tableAfter (lambda_handler env).2).map
        (fun r => (r.document_id, r.processing_timestamp, r.processing_status))
      = [(env.documentId, env.t0, strCOMPLETED)] := by
  unfold lambda_handler
  simp only [hx]
  rw [if_neg hs]
  simp only [store_summary, hpo, if_true]
  unfold store_metadata send_notification
  constructor
  · simp [writtenRecords, generate_summary, hpi]
  · simp [tableAfter, writtenRecords, generate_summary, putReplace, sameKey, hpi]

/-- Witness for the amended C1 at the healthy concrete run. -/
theorem c1_terminal_record_overwrites_processing_witness :
    extract_text env0.x env0.key = Except.ok "Meeting at 3pm.\nBudget: $500.".data ∧
    ¬ pyStrip "Meeting at 3pm.\nBudget: $500.".data = [] ∧
    env0.putItemOk = true ∧ env0.putObjectOk = true ∧
    ((writtenRecords (lambda_handler env0).2).map
        (fun r => (r.document_id, r.processing_timestamp, r.processing_status))
      = [(env0.documentId, env0.t0, strPROCESSING), (env0.documentId, env0.t0, strCOMPLETED)] ∧
     (tableAfter (lambda_handler env0).2).map
        (fun r => (r.document_id, r.processing_timestamp, r.processing_status))
      = [(env0.documentId, env0.t0, strCOMPLETED)]) :=
  ⟨by decide, by decide, rfl, rfl,
   c1_terminal_record_overwrites_processing env0 "Meeting at 3pm.\nBudget: $500.".data
     (by decide) (by decide) rfl rfl⟩

/-- Counterexample to C4 as stated: with every record-store `put_item` call
failing, the handler still returns a 200 success, no FAILED record is even
attempted, and nothing is re-raised — `store_metadata` swallows the
failure internally (lines 342-343). -/
theorem c4_put_item_failure_swallowed_counterexample :
    (lambda_handler env1).1
      = Except.ok { statusCode := 200
                    document_id := "d-1".data
                    document := "notes.txt".data
                    summary_key := "summaries/notes.txt.summary.txt".data
                    summary_length := 61 } ∧
    (attemptedRecords (lambda_handler env1).2).map Record.processing_status
      = [strPROCESSING, strCOMPLETED] ∧
    writtenRecords (lambda_handler env1).2 = [] := by
  exact ⟨by decide, by decide, by decide⟩

/-- C4 as amended: a record-store `put_item` failure is swallowed inside
`store_metadata` and never changes the pipeline outcome; only a
summary-artifact `put_object` failure is caught at the boundary, converted
into a FAILED record attempt plus a best-effort failure notification, and
re-raised unchanged. -/
theorem c4_persistence_propagation (env : HandlerEnv) (t : List Char) :
    (lambda_handler { env with putItemOk := true }).1
      = (lambda_handler { env with putItemOk := false }).1 ∧
    (extract_text env.x env.key = Except.ok t → ¬ pyStrip t = [] →
     env.putObjectOk = false →
      (lambda_handler env).1 = Except.error (PipelineError.persistence env.putObjectError) ∧
      (attemptedRecords (lambda_handler env).2).map
          (fun r => (r.processing_status, r.error_message))
        = [(strPROCESSING, none), (strFAILED, some env.putObjectError)] ∧
      publishedNotifications (lambda_handler env).2
        = [(strFAILED, some env.putObjectError, env.publishOk)]) := by
  constructor
  · unfold lambda_handler failOutcome
    cases hx : extract_text env.x env.key with
    | error e =>
      cases e with
      | extraction m => simp [hx]
    | ok t' =>
      by_cases hst : pyStrip t' = []
      · simp [hx, hst]
      · cases hpo : env.putObjectOk <;> simp [hx, hst, store_summary, hpo]
  · intro hx hs hpo
    unfold lambda_handler
    simp only [hx]
    rw [if_neg hs]
    simp only [store_summary, hpo, Bool.false_eq_true, if_false]
    unfold failOutcome store_metadata send_notification
    simp [attemptedRecords, publishedNotifications, generate_summary, PipelineError.msg]

/-- Witness for the amended C4 at the run whose artifact write fails. -/
theorem c4_persistence_propagation_witness :
    extract_text env2.x env2.key = Except.ok "Meeting at 3pm.\nBudget: $500.".data ∧
    ¬ pyStrip "Meeting at 3pm.\nBudget: $500.".data = [] ∧
    env2.putObjectOk = false ∧
    ((lambda_handler env2).1
       = Except.error (PipelineError.persistence env2.putObjectError) ∧
     (attemptedRecords (lambda_handler env2).2).map
         (fun r => (r.processing_status, r.error_message))
       = [(strPROCESSING, none), (strFAILED, some env2.putObjectError)] ∧
     publishedNotifications (lambda_handler env2).2
       = [(strFAILED, some env2.putObjectError, env2.publishOk)]) :=
  ⟨by decide, by decide, rfl,
   (c4_persistence_propagation env2 "Meeting at 3pm.\nBudget: $500.".data).2
     (by decide) (by decide) rfl⟩

/-- C5: when extraction yields empty-or-whitespace-only text, the handler
raises the empty-content error, writes a FAILED record carrying its
message, and never invokes the model. -/
theorem c5_empty_content_failure (env : HandlerEnv) (t : List Char)
    (hx : extract_text env.x env.key = Except.ok t)
    (hs : pyStrip t = [])
    (hpi : env.putItemOk = true) :
    (lambda_handler env).1 = Except.error (PipelineError.emptyContent emptyMsg) ∧
    (writtenRecords (lambda_handler env).2).map
        (fun r => (r.processing_status, r.error_message))
      = [(strPROCESSING, none), (strFAILED, some emptyMsg)] ∧
    modelInvocations (lambda_handler env).2 = [] := by
  unfold lambda_handler
  simp only [hx]
  rw [if_pos hs]
  unfold failOutcome store_metadata send_notification
  simp [writtenRecords, modelInvocations, hpi, PipelineError.msg]

/-- Witness for C5 at the whitespace-only extraction run. -/
theorem c5_empty_content_failure_witness :
    extract_text env3.x env3.key = Except.ok "  \n\t ".data ∧
    pyStrip "  \n\t ".data = [] ∧
    env3.putItemOk = true ∧
    ((lambda_handler env3).1 = Except.error (PipelineError.emptyContent emptyMsg) ∧
     (writtenRecords (lambda_handler env3).2).map
         (fun r => (r.processing_status, r.error_message))
       = [(strPROCESSING, none), (strFAILED, some emptyMsg)] ∧
     modelInvocations (lambda_handler env3).2 = []) :=
  ⟨by decide, by decide, rfl,
   c5_empty_content_failure env3 "  \n\t ".data (by decide) (by decide) rfl⟩


lemma pySplitlinesAux_no_boundary (l : List Char) :
    ∀ (acc : List Char), (∀ c ∈ l, isLineBoundary c = false) →
      pySplitlinesAux l acc
        = if acc.reverse ++ l = [] then [] else [acc.reverse ++ l] := by
  induction l with
  | nil =>
    intro acc h
    cases acc with
    | nil => simp [pySplitlinesAux]
    | cons a as => simp [pySplitlinesAux]
  | cons c rest ih =>
    intro acc h
    have hc : isLineBoundary c = false := h c (by simp)
    rw [pySplitlinesAux.eq_def]
    split
    · rename_i acc' a2 a3 heq
      exact absurd heq (by simp)
    · rename_i acc' a2 a3 r2 heq
      have hcr : c = '\r' := (List.cons.inj heq).1
      rw [hcr] at hc
      exact absurd hc (by decide)
    · rename_i acc' a2 a3 c' rest' hnm heq
      obtain ⟨h1, h2⟩ := List.cons.inj heq
      subst h1
      subst h2
      rw [if_neg (by simp [hc])]
      rw [ih (c :: acc') (fun d hd => h d (by simp [hd]))]
      have harr : (c :: acc').reverse ++ rest = acc'.reverse ++ c :: rest := by simp
      rw [harr]

lemma pySplitlines_no_boundary (l : List Char)
    (h : ∀ c ∈ l, isLineBoundary c = false) (hne : l ≠ []) :
    pySplitlines l = [l] := by
  unfold pySplitlines
  rw [pySplitlinesAux_no_boundary l [] h]
  simp [hne]

lemma c3_len : c3Input.length = 10001 := by
  unfold c3Input
  rw [List.length_cons, List.length_replicate]

lemma c3_take : c3Input.take 10000 = ' ' :: List.replicate 9999 'a' := by
  unfold c3Input
  rw [show (10000 : Nat) = 9999 + 1 from by norm_num, List.take_succ_cons,
      List.take_replicate, show min 9999 10000 = 9999 from by norm_num]

lemma c3_trunc : truncateBudget c3Input
    = ' ' :: (List.replicate 9999 'a' ++ truncationMarker) := by
  unfold truncateBudget
  rw [if_pos (by rw [c3_len]; norm_num), c3_take]
  rfl

lemma c3_marker : truncationMarker = ['.', '.', '.'] := rfl

lemma c3_rep_cons : List.replicate 9999 'a' = 'a' :: List.replicate 9998 'a' := by
  rw [show (9999 : Nat) = 9998 + 1 from by norm_num, List.replicate_succ]

lemma c3_line_no_boundary :
    ∀ c ∈ (' ' :: (List.replicate 9999 'a' ++ truncationMarker)), isLineBoundary c = false := by
  intro c hc
  rw [c3_marker] at hc
  simp only [List.mem_cons, List.mem_append, List.mem_replicate,
    List.not_mem_nil, or_false] at hc
  rcases hc with rfl | ⟨-, rfl⟩ | rfl | rfl | rfl <;> decide

lemma c3_line_getLast :
    (' ' :: (List.replicate 9999 'a' ++ truncationMarker)).getLast? = some '.' := by
  rw [show (' ' :: (List.replicate 9999 'a' ++ truncationMarker))
        = (' ' :: List.replicate 9999 'a') ++ truncationMarker from rfl]
  rw [List.getLast?_append, c3_marker]
  rfl

lemma pyRStrip_of_getLast_not_space (l : List Char) (a : Char)
    (ha : l.getLast? = some a) (hs : isPySpace a = false) : pyRStrip l = l := by
  unfold pyRStrip
  cases hr : l.reverse with
  | nil =>
    have hl : l = [] := by rw [← List.reverse_reverse l, hr]; rfl
    rw [hl]
    rfl
  | cons b tl =>
    have hb : b = a := by
      have hh : l.reverse.head? = l.getLast? := List.head?_reverse l
      rw [hr, ha] at hh
      exact Option.some.inj hh
    rw [List.dropWhile_cons_of_neg (by rw [hb, hs]; exact Bool.false_ne_true), ← hr,
        List.reverse_reverse]

lemma c3_strip_line :
    pyStrip (' ' :: (List.replicate 9999 'a' ++ truncationMarker))
      = List.replicate 9999 'a' ++ truncationMarker := by
  unfold pyStrip
  rw [pyRStrip_of_getLast_not_space _ '.' c3_line_getLast (by decide)]
  rw [List.dropWhile_cons_of_pos (by decide)]
  rw [c3_rep_cons, List.cons_append, List.dropWhile_cons_of_neg (by decide),
      ← List.cons_append, ← c3_rep_cons]

lemma c3_R_ne_nil : List.replicate 9999 'a' ++ truncationMarker ≠ [] := by
  rw [c3_rep_cons, List.cons_append]
  exact List.cons_ne_nil _ _

lemma c3_lower : pyLower (List.replicate 9999 'a' ++ truncationMarker)
    = 'a' :: pyLower (List.replicate 9998 'a' ++ truncationMarker) := by
  rw [c3_rep_cons, List.cons_append]
  rfl

lemma c3_not_pdf :
    startsWithL (pyLower (List.replicate 9999 'a' ++ truncationMarker)) "%pdf".data = false := by
  rw [c3_lower, show "%pdf".data = '%' :: ['p', 'd', 'f'] from rfl]
  simp only [startsWithL, show (('a' : Char) == '%') = false from by decide, Bool.false_and]

lemma c3_not_eof :
    startsWithL (pyLower (List.replicate 9999 'a' ++ truncationMarker)) "%%eof".data = false := by
  rw [c3_lower, show "%%eof".data = '%' :: ['%', 'e', 'o', 'f'] from rfl]
  simp only [startsWithL, show (('a' : Char) == '%') = false from by decide, Bool.false_and]

lemma c3_not_obj :
    matchObjPattern (List.replicate 9999 'a' ++ truncationMarker) = false := by
  rw [c3_rep_cons, List.cons_append]
  simp only [matchObjPattern, chompWhile1, show isPyDigit 'a' = false from by decide,
    Bool.false_eq_true, if_false]

lemma c3_lower_len :
    (pyLower (List.replicate 9999 'a' ++ truncationMarker)).length = 10002 := by
  unfold pyLower
  rw [List.length_map, List.length_append, List.length_replicate, c3_marker]
  rfl

lemma c3_not_kw :
    pyLower (List.replicate 9999 'a' ++ truncationMarker) ∉ pdfKeywords := by
  intro hmem
  simp only [pdfKeywords, List.mem_cons, List.not_mem_nil, or_false] at hmem
  rcases hmem with h | h | h <;>
    · have hl := congrArg List.length h
      rw [c3_lower_len] at hl
      exact absurd hl (by decide)

lemma c3_cleanLoop :
    cleanLoop [' ' :: (List.replicate 9999 'a' ++ truncationMarker)]
      = [List.replicate 9999 'a' ++ truncationMarker] := by
  simp only [cleanLoop, c3_strip_line]
  rw [if_neg c3_R_ne_nil,
      if_neg (by rw [c3_not_pdf]; exact Bool.false_ne_true),
      if_neg (by rw [c3_not_eof]; exact Bool.false_ne_true),
      if_neg (by rw [c3_not_obj]; exact Bool.false_ne_true),
      if_neg c3_not_kw]

lemma intercalate_singleton (x : List Char) : List.intercalate ['\n'] [x] = x := by
  simp [List.intercalate]

lemma c3_filter :
    (List.replicate 9999 'a' ++ truncationMarker).filter keepChar
      = List.replicate 9999 'a' ++ truncationMarker := by
  rw [List.filter_eq_self]
  intro a ha
  rw [c3_marker] at ha
  simp only [List.mem_append, List.mem_replicate, List.mem_cons,
    List.not_mem_nil, or_false] at ha
  rcases ha with ⟨-, rfl⟩ | rfl | rfl | rfl <;> decide

lemma c3_promptDocText :
    promptDocText c3Input = List.replicate 9999 'a' ++ truncationMarker := by
  unfold promptDocText
  rw [c3_trunc]
  unfold _clean_extracted_text
  rw [pySplitlines_no_boundary _ c3_line_no_boundary (List.cons_ne_nil _ _)]
  rw [c3_cleanLoop, intercalate_singleton]
  exact c3_filter

/-- Counterexample to C3 as stated: for this 10,001-character input the
text embedded in the generation prompt is the sanitized form of the
truncated text, not the truncated text itself — the leading space is
stripped by the defensive sanitizer pass, so the embedded text differs
from "first 10,000 characters plus marker". -/
theorem c3_truncation_counterexample :
    c3Input.length > 10000 ∧
    promptDocText c3Input ≠ c3Input.take 10000 ++ truncationMarker := by
  refine ⟨by rw [c3_len]; norm_num, ?_⟩
  intro h
  rw [c3_promptDocText, c3_take] at h
  have hlen := congrArg List.length h
  rw [List.length_append, List.length_replicate, List.cons_append, List.length_cons,
      List.length_append, List.length_replicate] at hlen
  omega

/-- C3 as amended: for inputs longer than 10,000 characters the document
text sent to the generation service is the sanitizer applied to (first
10,000 characters + truncation marker); when the sanitizer leaves that
truncated text unchanged, it is exactly the first 10,000 characters plus
the marker. -/
theorem c3_truncated_text_is_sanitized (gen : List Char → List Char) (t : List Char)
    (h : t.length > 10000) :
    (generate_summary gen t).2
      = [Event.invokeModel promptSystemText
          (prompt_user (_clean_extracted_text (t.take 10000 ++ truncationMarker)))] ∧
    (_clean_extracted_text (t.take 10000 ++ truncationMarker) = t.take 10000 ++ truncationMarker →
      (generate_summary gen t).2
        = [Event.invokeModel promptSystemText (prompt_user (t.take 10000 ++ truncationMarker))]) := by
  have hdoc : promptDocText t = _clean_extracted_text (t.take 10000 ++ truncationMarker) := by
    unfold promptDocText truncateBudget
    rw [if_pos h]
  constructor
  · simp only [generate_summary, hdoc]
  · intro h2
    simp only [generate_summary, hdoc, h2]

/-- Witness for the amended C3 at the long concrete input. -/
theorem c3_truncated_text_is_sanitized_witness :
    c3Input.length > 10000 ∧
    ((generate_summary genPlain c3Input).2
       = [Event.invokeModel promptSystemText
           (prompt_user (_clean_extracted_text (c3Input.take 10000 ++ truncationMarker)))] ∧
     (_clean_extracted_text (c3Input.take 10000 ++ truncationMarker)
        = c3Input.take 10000 ++ truncationMarker →
       (generate_summary genPlain c3Input).2
         = [Event.invokeModel promptSystemText
             (prompt_user (c3Input.take 10000 ++ truncationMarker))])) :=
  ⟨by rw [c3_len]; norm_num,
   c3_truncated_text_is_sanitized genPlain c3Input (by rw [c3_len]; norm_num)⟩

lemma cleanLoop_eq_filterMap (ls : List (List Char)) :
    cleanLoop ls = ls.filterMap specLineStep := by
  induction ls with
  | nil => rfl
  | cons l rest ih =>
    rw [List.filterMap_cons]
    by_cases h0 : pyStrip l = []
    · simp [cleanLoop, specLineStep, h0, ih]
    · by_cases h1 : startsWithL (pyLower (pyStrip l)) "%pdf".data = true
      · simp [cleanLoop, specLineStep, h0, h1, ih]
      · by_cases h2 : startsWithL (pyLower (pyStrip l)) "%%eof".data = true
        · simp [cleanLoop, specLineStep, h0, h1, h2, ih]
        · by_cases h3 : matchObjPattern (pyStrip l) = true
          · simp [cleanLoop, specLineStep, h0, h1, h2, h3, ih]
          · by_cases h4 : pyLower (pyStrip l) ∈ pdfKeywords
            · simp [cleanLoop, specLineStep, h0, h1, h2, h3, h4, ih]
            · simp [cleanLoop, specLineStep, h0, h1, h2, h3, h4, ih]

/-- Counterexample to C7 as stated: the source drops a line whose
LOWERCASED trimmed form is a container keyword, so the all-caps line
"ENDOBJ" is dropped by the code although it is not exactly one of the
container keywords; the claim-side sanitizer keeps it. -/
theorem c7_keyword_case_counterexample :
    _clean_extracted_text "ENDOBJ".data = [] ∧
    claimSanitize "ENDOBJ".data = "ENDOBJ".data ∧
    _clean_extracted_text "ENDOBJ".data ≠ claimSanitize "ENDOBJ".data := by
  exact ⟨by decide, by decide, by decide⟩

/-- C7 as amended: the sanitizer processes the input line by line exactly
as described, with the container-keyword comparison performed on the
lowercased trimmed line (case-insensitively). -/
theorem c7_sanitize_line_behavior (raw : List Char) :
    _clean_extracted_text raw = specSanitize raw := by
  unfold _clean_extracted_text specSanitize
  rw [cleanLoop_eq_filterMap]

/-- C8: when Textract raises its unsupported-document condition (and the
extension is not one of the direct-read text extensions), `extract_text`
returns the sanitizer applied to the lossy-UTF-8 decode of the raw object
bytes instead of failing; for the sample PDF-structured bytes the
extracted text is exactly "Hello World". -/
theorem c8_unsupported_format_fallback (x : ExtractCollab) (key : List Char)
    (hext : splitextExt (pyLower key) ∉ textLikeExts)
    (hun : x.textractOutcome = TextractOutcome.unsupportedDocument) :
    extract_text x key = Except.ok (_clean_extracted_text x.lossyUtf8Body) ∧
    (x.lossyUtf8Body = "%PDF-1.4\n1 0 obj\nHello World\nendobj\n%%EOF".data →
      extract_text x key = Except.ok "Hello World".data) := by
  have h1 : extract_text x key = Except.ok (_clean_extracted_text x.lossyUtf8Body) := by
    unfold extract_text
    rw [if_neg hext, hun]
  refine ⟨h1, fun hb => ?_⟩
  rw [h1, hb]
  decide

/-- Witness for C8 at the concrete unsupported-format upload. -/
theorem c8_unsupported_format_fallback_witness :
    splitextExt (pyLower "report.pdf".data) ∉ textLikeExts ∧
    xPdf.textractOutcome = TextractOutcome.unsupportedDocument ∧
    (extract_text xPdf "report.pdf".data
       = Except.ok (_clean_extracted_text xPdf.lossyUtf8Body) ∧
     (xPdf.lossyUtf8Body = "%PDF-1.4\n1 0 obj\nHello World\nendobj\n%%EOF".data →
       extract_text xPdf "report.pdf".data = Except.ok "Hello World".data)) :=
  ⟨by decide, rfl,
   c8_unsupported_format_fallback xPdf "report.pdf".data (by decide) rfl⟩

end DocSummarizer
